import Mathlib

/-!
# Verification of the relaxed-point-planner persistence and sync layer

Shallow embedding of the local-first persistence layer of the
relaxed-point-planner application:

* `SQLiteStorageService` (src/unnamed/part_001, second file): the structured
  relational store over tables `presets`, `preset_activities`,
  `completed_tasks`, `points_tracking`, with an operation queue.
* `DataPersistenceService` (src/src/services/dataPersistence.ts): the
  persistence facade over the structured store and the Capacitor
  `Preferences` key-value store, with one-time legacy migration.
* `CalendarSyncService` (src/unnamed/part_001, first file): the remote
  calendar sync coordinator with 401 refresh-and-retry.

Modelling conventions:
* JSON (de)serialization through the key-value store is the identity on the
  typed values stored (every key holds a typed `Option` payload).
* Wall-clock timestamp columns that no claim mentions (`created_at` of
  completed tasks, `updated_at` of the points row) are omitted.
* Whether the `Preferences` primitive currently succeeds is a boolean flag
  of the model state (`kvHealthy`); whether the SQLite engine can open a
  connection is the flag `sqliteAvailable`, and `sqliteOk` records that the
  driver's `initialize()` has succeeded (`db` handle non-null).
-/

/-- Model of `Activity` from src/src/types/scheduler.ts, as used throughout the
services: times are raw `"HH:MM"` strings, `description` is optional. -/
structure Activity where
  id : String
  title : String
  startTime : String
  endTime : String
  category : String
  color : String
  points : Int
  description : Option String
deriving Repr, DecidableEq

/-- Model of `Preset` from src/src/types/scheduler.ts: an ordered list of embedded
activities plus an optional mood and a creation timestamp string. -/
structure Preset where
  id : String
  name : String
  activities : List Activity
  mood : Option String
  createdAt : String
deriving Repr, DecidableEq

/-- Model of `CompletedTask` from src/src/types/scheduler.ts. -/
structure CompletedTask where
  id : String
  activityId : String
  date : String
  points : Int
deriving Repr, DecidableEq

/-- JavaScript `x || null` / `x || undefined` applied to an optional string:
the empty string is falsy, so it collapses to "absent". Used by
`SQLiteStorageService.savePreset` (`activity.description || null`,
`preset.mood || null`) and `loadPresets` (`dbActivity.description ||
undefined`, `dbPreset.mood || undefined`). -/
def orNull : Option String → Option String
  | some s => if s = "" then none else some s
  | none => none

/-! ## SQLite row types (part_001, `DatabasePreset` etc.) -/

/-- Row of the `presets` table. -/
structure PresetRow where
  id : String
  name : String
  mood : Option String
  created_at : String
deriving Repr, DecidableEq

/-- Row of the `preset_activities` table; `id` is the primary key,
`sort_order` the explicit integer sort column. -/
structure ActivityRow where
  id : String
  preset_id : String
  title : String
  start_time : String
  end_time : String
  category : String
  points : Int
  description : Option String
  color : String
  sort_order : Nat
deriving Repr, DecidableEq

/-- Row of the `completed_tasks` table; `id` is the primary key and there is
a `UNIQUE(activity_id, date)` constraint. -/
structure CompletedTaskRow where
  id : String
  activity_id : String
  date : String
  points : Int
deriving Repr, DecidableEq

/-- The singleton `points_tracking` row (`id = 'main'`). -/
structure PointsRow where
  total_points : Int
  daily_points : Int
  last_activity_date : Option String
deriving Repr, DecidableEq

/-- The state of the four tables of the structured store. -/
structure SQLiteDB where
  presets : List PresetRow
  preset_activities : List ActivityRow
  completed_tasks : List CompletedTaskRow
  points : PointsRow
deriving Repr, DecidableEq

namespace SQLiteStorageService

/-- Model of `INSERT OR REPLACE INTO completed_tasks`: SQLite deletes every row that
conflicts with the new row on any uniqueness constraint (the `id` primary
key or `UNIQUE(activity_id, date)`) and inserts the new row.
`SQLiteStorageService.addCompletedTask`. -/
def addCompletedTaskRows (rows : List CompletedTaskRow) (t : CompletedTask) :
    List CompletedTaskRow :=
  rows.filter
    (fun q => !(q.id == t.id || (q.activity_id == t.activityId && q.date == t.date)))
    ++ [{ id := t.id, activity_id := t.activityId, date := t.date, points := t.points }]

/-- Model of `DELETE FROM completed_tasks WHERE activity_id = ? AND date = ?`:
`SQLiteStorageService.removeCompletedTask`. -/
def removeCompletedTaskRows (rows : List CompletedTaskRow)
    (activityId date : String) : List CompletedTaskRow :=
  rows.filter (fun q => !(q.activity_id == activityId && q.date == date))

end SQLiteStorageService

namespace DataPersistenceService

/-- The key-value fallback path of `DataPersistenceService.addCompletedTask`
(lines 448-450): load all tasks, drop any task with the same
`(activityId, date)` pair, append the new one. -/
def fallbackAddCompletedTask (ts : List CompletedTask) (t : CompletedTask) :
    List CompletedTask :=
  ts.filter (fun x => !(x.activityId == t.activityId && x.date == t.date)) ++ [t]

/-- The key-value fallback path of
`DataPersistenceService.removeCompletedTask` (lines 465-467). -/
def fallbackRemoveCompletedTask (ts : List CompletedTask)
    (activityId date : String) : List CompletedTask :=
  ts.filter (fun x => !(x.activityId == activityId && x.date == date))

end DataPersistenceService

/-- One call in a sequence of completed-task mutations. -/
inductive CTOp where
  | add (t : CompletedTask)
  | remove (activityId date : String)
deriving Repr, DecidableEq

/-- Run a sequence of completed-task operations against the structured-store
table. -/
def runSqliteCTOps (ops : List CTOp) (rows : List CompletedTaskRow) :
    List CompletedTaskRow :=
  ops.foldl
    (fun acc op =>
      match op with
      | .add t => SQLiteStorageService.addCompletedTaskRows acc t
      | .remove aid d => SQLiteStorageService.removeCompletedTaskRows acc aid d)
    rows

/-- Run a sequence of completed-task operations against the key-value
fallback collection. -/
def runFallbackCTOps (ops : List CTOp) (ts : List CompletedTask) :
    List CompletedTask :=
  ops.foldl
    (fun acc op =>
      match op with
      | .add t => DataPersistenceService.fallbackAddCompletedTask acc t
      | .remove aid d => DataPersistenceService.fallbackRemoveCompletedTask acc aid d)
    ts

/-- No two rows of the table share an `(activity_id, date)` pair. -/
def UniqueRowPairs (rows : List CompletedTaskRow) : Prop :=
  rows.Pairwise (fun a b => ¬(a.activity_id = b.activity_id ∧ a.date = b.date))

/-- No two stored tasks share an `(activityId, date)` pair. -/
def UniqueTaskPairs (ts : List CompletedTask) : Prop :=
  ts.Pairwise (fun a b => ¬(a.activityId = b.activityId ∧ a.date = b.date))

namespace SQLiteStorageService

/-- The row written for the `i`-th activity of a preset by
`SQLiteStorageService.savePreset`: the list index `i` becomes the
`sort_order` column, and the falsy-empty description collapses to `NULL`. -/
def activityToRow (presetId : String) (i : Nat) (a : Activity) : ActivityRow :=
  { id := a.id, preset_id := presetId, title := a.title,
    start_time := a.startTime, end_time := a.endTime, category := a.category,
    points := a.points, description := orNull a.description, color := a.color,
    sort_order := i }

/-- The plain `INSERT INTO preset_activities` loop of
`SQLiteStorageService.savePreset`: inserts activities one by one with their
index as `sort_order`, failing on a primary-key conflict on `id`. -/
def insertPresetActivities (rows : List ActivityRow) (presetId : String)
    (i : Nat) : List Activity → Except String (List ActivityRow)
  | [] => .ok rows
  | a :: rest =>
    if rows.any (fun r => r.id == a.id) then
      .error "UNIQUE constraint failed: preset_activities.id"
    else
      insertPresetActivities (rows ++ [activityToRow presetId i a]) presetId
        (i + 1) rest

/-- Model of `SQLiteStorageService.savePreset`: `INSERT OR REPLACE` of the preset row
(replacing any row with the same `id`), `DELETE FROM preset_activities WHERE
preset_id = ?`, then re-insertion of all activities in list order with the
index as the `sort_order` column. -/
def savePreset (db : SQLiteDB) (p : Preset) : Except String SQLiteDB := do
  let presetRows := db.presets.filter (fun r => !(r.id == p.id)) ++
    [{ id := p.id, name := p.name, mood := orNull p.mood,
       created_at := p.createdAt }]
  let remaining := db.preset_activities.filter (fun r => !(r.preset_id == p.id))
  let rows ← insertPresetActivities remaining p.id 0 p.activities
  .ok { db with presets := presetRows, preset_activities := rows }

/-- Mapping a `preset_activities` row back to an `Activity` in
`SQLiteStorageService.loadPresets` (`description: dbActivity.description ||
undefined`). -/
def rowToActivity (r : ActivityRow) : Activity :=
  { id := r.id, title := r.title, startTime := r.start_time,
    endTime := r.end_time, category := r.category, points := r.points,
    description := orNull r.description, color := r.color }

/-- Model of `SELECT * FROM preset_activities WHERE preset_id = ? ORDER BY sort_order
ASC`, each row mapped back to an `Activity`. -/
def loadActivitiesFor (db : SQLiteDB) (presetId : String) : List Activity :=
  ((db.preset_activities.filter (fun r => r.preset_id == presetId)).insertionSort
      (fun a b => a.sort_order ≤ b.sort_order)).map rowToActivity

/-- Model of `SQLiteStorageService.loadPresets`: all presets ordered by `created_at`
descending, each with its activities ordered by `sort_order` ascending. -/
def loadPresets (db : SQLiteDB) : List Preset :=
  (db.presets.insertionSort (fun a b => b.created_at ≤ a.created_at)).map
    (fun pr =>
      { id := pr.id, name := pr.name, mood := orNull pr.mood,
        createdAt := pr.created_at, activities := loadActivitiesFor db pr.id })

/-- Model of `SQLiteStorageService.deletePreset`: deletes the preset's activity rows,
then the preset row. -/
def deletePreset (db : SQLiteDB) (presetId : String) : Except String SQLiteDB :=
  .ok { db with
    preset_activities := db.preset_activities.filter
      (fun r => !(r.preset_id == presetId)),
    presets := db.presets.filter (fun r => !(r.id == presetId)) }

/-- The plain `INSERT INTO completed_tasks` loop of
`SQLiteStorageService.saveCompletedTasks` (primary key `id`,
`UNIQUE(activity_id, date)`). -/
def insertCompletedTasks (rows : List CompletedTaskRow) :
    List CompletedTask → Except String (List CompletedTaskRow)
  | [] => .ok rows
  | t :: rest =>
    if rows.any (fun q =>
        q.id == t.id || (q.activity_id == t.activityId && q.date == t.date)) then
      .error "UNIQUE constraint failed: completed_tasks"
    else
      insertCompletedTasks
        (rows ++ [{ id := t.id, activity_id := t.activityId, date := t.date,
                    points := t.points }]) rest

/-- Model of `SQLiteStorageService.saveCompletedTasks`: `DELETE FROM completed_tasks`
then insertion of every task. -/
def saveCompletedTasks (db : SQLiteDB) (ts : List CompletedTask) :
    Except String SQLiteDB := do
  let rows ← insertCompletedTasks [] ts
  .ok { db with completed_tasks := rows }

/-- Model of `SQLiteStorageService.addCompletedTask` on the whole database state. -/
def addCompletedTask (db : SQLiteDB) (t : CompletedTask) :
    Except String SQLiteDB :=
  .ok { db with completed_tasks := addCompletedTaskRows db.completed_tasks t }

/-- Model of `SQLiteStorageService.removeCompletedTask` on the whole database state. -/
def removeCompletedTask (db : SQLiteDB) (activityId date : String) :
    Except String SQLiteDB :=
  .ok { db with
    completed_tasks := removeCompletedTaskRows db.completed_tasks activityId date }

/-- Model of `SQLiteStorageService.updateTotalPoints`. -/
def updateTotalPoints (db : SQLiteDB) (n : Int) : Except String SQLiteDB :=
  .ok { db with points := { db.points with total_points := n } }

/-- Model of `SQLiteStorageService.updateDailyPoints`. -/
def updateDailyPoints (db : SQLiteDB) (n : Int) : Except String SQLiteDB :=
  .ok { db with points := { db.points with daily_points := n } }

/-- Model of `SQLiteStorageService.updateLastActivityDate`. -/
def updateLastActivityDate (db : SQLiteDB) (d : String) : Except String SQLiteDB :=
  .ok { db with points := { db.points with last_activity_date := some d } }

end SQLiteStorageService

/-- The block of rows the activity-insertion loop of `savePreset` appends:
the activities of the preset in list order, with consecutive `sort_order`
values starting at `i`. -/
def rowsFrom (presetId : String) (i : Nat) : List Activity → List ActivityRow
  | [] => []
  | a :: rest =>
    SQLiteStorageService.activityToRow presetId i a :: rowsFrom presetId (i + 1) rest

/-! ## CalendarSyncService model (part_001, first file) -/

/-- Model of `GoogleCalendarCredentials`. -/
structure GoogleCalendarCredentials where
  access_token : String
  refresh_token : Option String
  expires_in : Int
  token_type : String
  scope : String
deriving Repr, DecidableEq

/-- Model of `SyncStatus`: last sync timestamp plus the synced activity ids. -/
structure SyncStatus where
  lastSyncDate : Option String
  syncedActivities : List String
deriving Repr, DecidableEq

/-- An HTTP response, reduced to its status code. -/
structure HttpResponse where
  status : Nat
deriving Repr, DecidableEq

/-- fetch `Response.ok`: status in 200..299. -/
def HttpResponse.ok (r : HttpResponse) : Bool :=
  decide (200 ≤ r.status) && decide (r.status < 300)

/-- In-memory (`credentials`, `isConnected`) and persisted
(`google_calendar_credentials`, `calendar_sync_status` keys) state of
`CalendarSyncService`. -/
structure CalState where
  credentials : Option GoogleCalendarCredentials
  isConnected : Bool
  storedCredentials : Option GoogleCalendarCredentials
  storedSyncStatus : Option SyncStatus
deriving Repr, DecidableEq

/-- Outcome of one call to the OAuth token endpoint. -/
inductive RefreshOutcome where
  /-- The token endpoint answered OK, delivering a fresh access token. -/
  | success (newToken : String)
  /-- a non-ok response from the token endpoint. -/
  | httpFail
  /-- The token request itself threw (a network error). -/
  | netFail
deriving Repr, DecidableEq

/-- The remote world one `makeApiRequest` call sees: the response to the
first request, the token endpoint's behaviour, and the response to the
(single possible) retried request. -/
structure ApiEnv where
  firstResponse : HttpResponse
  refreshOutcome : RefreshOutcome
  retryResponse : HttpResponse
deriving Repr, DecidableEq

namespace CalendarSyncService

/-- Model of `clearCredentials`: removes both persisted keys and resets the in-memory
state. -/
def clearCredentials (_s : CalState) : CalState :=
  { credentials := none, isConnected := false, storedCredentials := none,
    storedSyncStatus := none }

/-- Model of `refreshToken` (part_001 lines 429-463): with no stored refresh token it
fails immediately; on a fulfilled non-ok token response it clears the
credentials and fails; on success it mutates the access token in place and
persists it; when the token fetch itself throws, the catch merely returns
failure, leaving the credentials in place. Returns the new access token on
success. -/
def refreshToken (env : ApiEnv) (s : CalState) : Option String × CalState :=
  match s.credentials with
  | none => (none, s)
  | some c =>
    match c.refresh_token with
    | none => (none, s)
    | some _ =>
      match env.refreshOutcome with
      | .success tok =>
        let c2 := { c with access_token := tok }
        (some tok,
         { s with credentials := some c2, storedCredentials := some c2 })
      | .httpFail => (none, clearCredentials s)
      | .netFail => (none, s)

/-- Model of `makeApiRequest` (part_001 lines 235-279): throws with no credentials;
on a 401 attempts exactly one `refreshToken`, retrying the original request
once with the new token on success and otherwise returning the original 401.
The result carries the response handed to the caller, the updated state, the
bearer tokens used on the primary endpoint in order (one entry per fetch of
the original request), and the number of refresh attempts. -/
def makeApiRequest (env : ApiEnv) (s : CalState) :
    Except String (HttpResponse × CalState × List String × Nat) :=
  match s.credentials with
  | none => .error "No credentials available"
  | some c =>
    if env.firstResponse.status = 401 then
      match refreshToken env s with
      | (some tok, s2) => .ok (env.retryResponse, s2, [c.access_token, tok], 1)
      | (none, s2) => .ok (env.firstResponse, s2, [c.access_token], 1)
    else .ok (env.firstResponse, s, [c.access_token], 0)

end CalendarSyncService

/-- JavaScript `String.prototype.split(sep)` on a character list: splits on
every occurrence of the separator, keeping empty pieces. -/
def splitCharList (sep : Char) : List Char → List (List Char)
  | [] => [[]]
  | c :: rest =>
    if c = sep then [] :: splitCharList sep rest
    else
      match splitCharList sep rest with
      | [] => [[c]]
      | g :: gs => (c :: g) :: gs

/-- JavaScript `parseInt` on a split piece: parses a maximal leading run of
digits, `NaN` (modelled `none`) when there is none. -/
def parseIntJS (s : List Char) : Option Nat :=
  let ds := s.takeWhile Char.isDigit
  if ds.isEmpty then none
  else some (ds.foldl (fun n c => n * 10 + (c.toNat - 48)) 0)

/-- Model of `t.split(':')` followed by `parseInt` on the first two pieces, combined
into minutes after local midnight. `none` models the `NaN`/invalid-date
path (`parseInt(undefined)` when there is no `':'`). JS `setHours`
normalizes out-of-range hour and minute values exactly as this
minutes-arithmetic does. -/
def parseTimeOfDay (t : String) : Option Nat :=
  match splitCharList ':' t.toList with
  | h :: m :: _ => do
    let hh ← parseIntJS h
    let mm ← parseIntJS m
    pure (hh * 60 + mm)
  | _ => none

/-- The target day handed to `syncActivitiesToCalendar`: the instant of its
local midnight, in minutes, plus its ISO day string used in the event id. -/
structure SyncDate where
  dayStart : Int
  isoDay : String
deriving Repr, DecidableEq

/-- Model of `CalendarEvent` (part_001), with the start/end `dateTime` instants in
minutes. -/
structure CalendarEvent where
  id : String
  summary : String
  description : String
  startMinutes : Int
  endMinutes : Int
deriving Repr, DecidableEq

namespace CalendarSyncService

/-- Model of `createCalendarEvent` (part_001 lines 281-331): combines the target date
with the activity's `HH:MM` fields; throws on an unparsable time; if the
computed end is not strictly after the computed start, the end is forced to
start + 60 minutes. -/
def createCalendarEvent (a : Activity) (d : SyncDate) :
    Except String CalendarEvent :=
  match parseTimeOfDay a.startTime, parseTimeOfDay a.endTime with
  | some sm, some em =>
    let startDateTime : Int := d.dayStart + sm
    let endDateTime0 : Int := d.dayStart + em
    let endDateTime : Int :=
      if endDateTime0 ≤ startDateTime then startDateTime + 60 else endDateTime0
    .ok { id := "relaxed-planner-" ++ a.id ++ "-" ++ d.isoDay,
          summary := a.title,
          description := (a.description.getD "") ++ "\n\nPoints: " ++
            toString a.points ++ "\nCategory: " ++ a.category ++
            "\n\nCreated by Relaxed Point Planner",
          startMinutes := startDateTime, endMinutes := endDateTime }
  | _, _ => .error ("Invalid date/time for activity " ++ a.title)

end CalendarSyncService

/-- The remote behaviour one batch sync sees: whether the create-event call
for a given event succeeds (`createEvent` returns `true`; every kind of
failure — non-ok response or thrown network error — is caught inside
`createEvent` and returned as `false`), and the current time recorded into
the sync status. -/
structure SyncEnv where
  createOk : CalendarEvent → Bool
  nowIso : String

namespace CalendarSyncService

/-- The per-activity loop of `syncActivitiesToCalendar` (part_001 lines
152-168): builds the event (which may throw) and issues the create request;
any per-activity failure is caught, an error string is recorded, and
processing continues with the next activity. Returns the success count, the
collected error strings, and the ids attempted, in input order. -/
def syncLoop (env : SyncEnv) (d : SyncDate) :
    List Activity → Nat × List String × List String
  | [] => (0, [], [])
  | a :: rest =>
    match createCalendarEvent a d with
    | .ok ev =>
      if env.createOk ev then
        (1 + (syncLoop env d rest).1, (syncLoop env d rest).2.1,
         a.id :: (syncLoop env d rest).2.2)
      else
        ((syncLoop env d rest).1,
         ("Failed to create event for " ++ a.title) ::
           (syncLoop env d rest).2.1,
         a.id :: (syncLoop env d rest).2.2)
    | .error e =>
      ((syncLoop env d rest).1,
       (a.title ++ ": " ++ e) :: (syncLoop env d rest).2.1,
       a.id :: (syncLoop env d rest).2.2)

/-- Model of `syncActivitiesToCalendar` (part_001 lines 141-187): throws when not
connected; otherwise processes every activity, always records the sync
status (current timestamp + every input activity id) after the batch, and
returns `true` iff at least one activity synced. -/
def syncActivitiesToCalendar (env : SyncEnv) (s : CalState)
    (activities : List Activity) (d : SyncDate) :
    Except String (Bool × CalState) :=
  if s.isConnected && s.credentials.isSome then
    let r := syncLoop env d activities
    let status : SyncStatus :=
      { lastSyncDate := some env.nowIso,
        syncedActivities := activities.map (fun a => a.id) }
    .ok (decide (0 < r.1), { s with storedSyncStatus := some status })
  else .error "Not connected to Google Calendar"

end CalendarSyncService

/-! ## The operation queue (part_001 lines 558-580) -/

namespace SQLiteStorageService

/-- One `queueOperation` link, `currentQueue.then(async () => {...})`:
if the prior chain is rejected, the `then` callback never runs — the
operation does not execute and the caller's promise never settles; if it is
fulfilled, the operation executes, the caller's promise settles with exactly
the operation's own outcome, and the link takes the same outcome (`throw
error` re-raises into the chain). Returns (link state, caller's settled
outcome if any, whether the operation executed). -/
def queueStep {α : Type} (chain : Except String Unit) (op : Except String α) :
    Except String Unit × Option (Except String α) × Bool :=
  match chain with
  | .error e => (.error e, none, false)
  | .ok _ =>
    match op with
    | .ok a => (.ok (), some (.ok a), true)
    | .error e => (.error e, some (.error e), true)

/-- The `.catch(() => {})` appended to every link: a rejected chain becomes
fulfilled, so the queue keeps draining past failures. -/
def chainCatch (chain : Except String Unit) : Except String Unit :=
  match chain with
  | .ok _ => .ok ()
  | .error _ => .ok ()

/-- Drain the queue: operations run strictly one after another in submission
order, each link rooted at the prior link's completion with `chainCatch`
interposed exactly as in `queueOperation`. Returns, in submission order,
each caller's settled outcome (`none` = its promise never settles) and
whether each operation actually executed. -/
def runQueue {α : Type} (chain : Except String Unit) :
    List (Except String α) → List (Option (Except String α)) × List Bool
  | [] => ([], [])
  | op :: rest =>
    let step := queueStep chain op
    let next := runQueue (chainCatch step.1) rest
    (step.2.1 :: next.1, step.2.2 :: next.2)

end SQLiteStorageService

/-! ## Key-value store (Capacitor Preferences), legacy store, facade -/

/-- The typed contents of each `Preferences` key used by the persistence
facade; `none` = key absent. JSON round-tripping is the identity on the
typed payloads. -/
structure Preferences where
  activities : Option (List Activity)
  presets : Option (List Preset)
  totalPoints : Option Int
  dailyPoints : Option Int
  completedTasks : Option (List CompletedTask)
  loadedPresetId : Option String
  lastActivityDate : Option String
  calendarSyncData : Option SyncStatus
deriving Repr, DecidableEq

/-- The four legacy `localStorage` keys inspected by the one-time migration
(`relaxed-scheduler-activities`, `-presets`, `-points`, `-completed`). -/
structure LegacyStore where
  activities : Option (List Activity)
  presets : Option (List Preset)
  points : Option Int
  completed : Option (List CompletedTask)
deriving Repr, DecidableEq

/-- Whole-session state of the persistence facade: its `isInitialized`
flag, the SQLite driver (`sqliteOk` = the driver's own initialized flag /
non-null `db` handle; `sqliteAvailable` = whether the engine can open a
connection on this platform), the structured store contents, the key-value
store, the legacy store, and whether the `Preferences` primitive currently
succeeds (`kvHealthy`). -/
structure FacadeState where
  isInitialized : Bool
  sqliteAvailable : Bool
  sqliteOk : Bool
  db : SQLiteDB
  prefs : Preferences
  legacy : LegacyStore
  kvHealthy : Bool
deriving Repr, DecidableEq

/-- Model of `Preferences.set`: rejects when the primitive is unhealthy, otherwise
updates the stored value. -/
def prefSet (s : FacadeState) (upd : Preferences → Preferences) :
    Except String FacadeState :=
  if s.kvHealthy then .ok { s with prefs := upd s.prefs }
  else .error "Preferences write failed"

/-- Run one structured-store operation the way the facade sees it: with a
null `db` handle (the driver's `initialize()` has not succeeded) every
queued operation rejects with `Database not initialized`; otherwise the
operation runs against the store. -/
def sqliteTryOp (s : FacadeState) (f : SQLiteDB → Except String SQLiteDB) :
    Except String FacadeState :=
  if s.sqliteOk then
    match f s.db with
    | .ok db2 => .ok { s with db := db2 }
    | .error e => .error e
  else .error "Database not initialized"

namespace SQLiteStorageService

/-- The database contents after `migrateFromPreferences` (part_001 lines
727-757): when a non-empty `presets` blob exists in the key-value store and
the SQLite `presets` table is empty, each preset is saved into SQLite, with
per-preset failures skipped; any failure reading the blob is swallowed. -/
def sqliteMigratedDb (s : FacadeState) : SQLiteDB :=
  if s.kvHealthy then
    match s.prefs.presets with
    | some ps =>
      if ps.isEmpty then s.db
      else if (loadPresets s.db).isEmpty then
        ps.foldl
          (fun db p =>
            match savePreset db p with
            | .ok db2 => db2
            | .error _ => db) s.db
      else s.db
    | none => s.db
  else s.db

/-- The driver's `initialize()` (part_001 lines 589-628): a no-op when
already initialized; otherwise opens the connection and creates the tables
(which always succeeds when the engine is available — the model's `db`
always carries the four tables, with the points row present), then runs
`migrateFromPreferences`; throws when the engine cannot open a
connection. -/
def initDriver (s : FacadeState) : Except String FacadeState :=
  if s.sqliteOk then .ok s
  else if s.sqliteAvailable then
    .ok { s with sqliteOk := true,
                 db := sqliteMigratedDb { s with sqliteOk := true } }
  else .error "Failed to initialize SQLite database"

end SQLiteStorageService

namespace DataPersistenceService

/-- Model of `saveActivities` (lines 84-89): Preferences only, no fallback, errors
propagate. -/
def saveActivities (s : FacadeState) (as : List Activity) :
    Except String FacadeState :=
  prefSet s (fun p => { p with activities := some as })

/-- The SQLite leg of `savePresets`: each preset saved individually, in
order, stopping at the first failure; the carried state keeps the presets
already saved. -/
def savePresetsSqliteLoop (s : FacadeState) :
    List Preset → Except (String × FacadeState) FacadeState
  | [] => .ok s
  | p :: rest =>
    match sqliteTryOp s (fun db => SQLiteStorageService.savePreset db p) with
    | .ok s2 => savePresetsSqliteLoop s2 rest
    | .error e => .error (e, s)

/-- Model of `savePresets` (lines 102-126): SQLite first when the facade is
initialized (each preset saved individually, returning on success); on any
SQLite failure, one Preferences write of the whole list; if that fallback
write also fails, the *fallback* error is rethrown. -/
def savePresets (s : FacadeState) (ps : List Preset) :
    Except String FacadeState :=
  if s.isInitialized then
    match savePresetsSqliteLoop s ps with
    | .ok s2 => .ok s2
    | .error (_, s2) => prefSet s2 (fun p => { p with presets := some ps })
  else prefSet s (fun p => { p with presets := some ps })

/-- Model of `loadPresets` (lines 128-146): SQLite when the facade is initialized and
the driver is up; Preferences fallback otherwise; `[]` on total failure.
Never raises. -/
def loadPresets (s : FacadeState) : List Preset :=
  if s.isInitialized && s.sqliteOk then SQLiteStorageService.loadPresets s.db
  else if s.kvHealthy then (s.prefs.presets).getD [] else []

/-- Model of `saveTotalPoints` (lines 239-255): SQLite first when initialized, then
the Preferences fallback (unguarded — its error propagates). -/
def saveTotalPoints (s : FacadeState) (n : Int) : Except String FacadeState :=
  if s.isInitialized then
    match sqliteTryOp s
        (fun db => SQLiteStorageService.updateTotalPoints db n) with
    | .ok s2 => .ok s2
    | .error _ => prefSet s (fun p => { p with totalPoints := some n })
  else prefSet s (fun p => { p with totalPoints := some n })

/-- Model of `saveDailyPoints` (lines 279-295): same shape as `saveTotalPoints`,
writing the `dailyPoints` key. -/
def saveDailyPoints (s : FacadeState) (n : Int) : Except String FacadeState :=
  if s.isInitialized then
    match sqliteTryOp s
        (fun db => SQLiteStorageService.updateDailyPoints db n) with
    | .ok s2 => .ok s2
    | .error _ => prefSet s (fun p => { p with dailyPoints := some n })
  else prefSet s (fun p => { p with dailyPoints := some n })

/-- Model of `saveLoadedPresetId` (lines 319-334): Preferences only, storing
`presetId || ''`; all errors swallowed. -/
def saveLoadedPresetId (s : FacadeState) (presetId : Option String) :
    FacadeState :=
  match prefSet s
      (fun p => { p with loadedPresetId := some (presetId.getD "") }) with
  | .ok s2 => s2
  | .error _ => s

/-- Model of `saveLastActivityDate` (lines 352-368): same shape as
`saveTotalPoints`, writing the `lastActivityDate` key. -/
def saveLastActivityDate (s : FacadeState) (d : String) :
    Except String FacadeState :=
  if s.isInitialized then
    match sqliteTryOp s
        (fun db => SQLiteStorageService.updateLastActivityDate db d) with
    | .ok s2 => .ok s2
    | .error _ => prefSet s (fun p => { p with lastActivityDate := some d })
  else prefSet s (fun p => { p with lastActivityDate := some d })

/-- Model of `saveCompletedTasks` (lines 392-413): SQLite first when initialized,
then the Preferences fallback, rethrowing the fallback error. -/
def saveCompletedTasks (s : FacadeState) (ts : List CompletedTask) :
    Except String FacadeState :=
  if s.isInitialized then
    match sqliteTryOp s
        (fun db => SQLiteStorageService.saveCompletedTasks db ts) with
    | .ok s2 => .ok s2
    | .error _ => prefSet s (fun p => { p with completedTasks := some ts })
  else prefSet s (fun p => { p with completedTasks := some ts })

/-- Model of `migrateFromLocalStorage`, activities step (lines 62-65): with the
legacy key present, save through the facade and remove the legacy key;
a save failure aborts the remaining migration (the outer catch swallows
it, keeping the state mutated so far). -/
def migrateStepActivities (s : FacadeState) : FacadeState × Bool :=
  match s.legacy.activities with
  | none => (s, true)
  | some as =>
    match saveActivities s as with
    | .ok s2 => ({ s2 with legacy := { s2.legacy with activities := none } }, true)
    | .error _ => (s, false)

/-- Model of `migrateFromLocalStorage`, presets step (lines 66-69). -/
def migrateStepPresets (s : FacadeState) : FacadeState × Bool :=
  match s.legacy.presets with
  | none => (s, true)
  | some ps =>
    match savePresets s ps with
    | .ok s2 => ({ s2 with legacy := { s2.legacy with presets := none } }, true)
    | .error _ => (s, false)

/-- Model of `migrateFromLocalStorage`, points step (lines 70-73). -/
def migrateStepPoints (s : FacadeState) : FacadeState × Bool :=
  match s.legacy.points with
  | none => (s, true)
  | some n =>
    match saveTotalPoints s n with
    | .ok s2 => ({ s2 with legacy := { s2.legacy with points := none } }, true)
    | .error _ => (s, false)

/-- Model of `migrateFromLocalStorage`, completed-tasks step (lines 74-77). -/
def migrateStepCompleted (s : FacadeState) : FacadeState × Bool :=
  match s.legacy.completed with
  | none => (s, true)
  | some ts =>
    match saveCompletedTasks s ts with
    | .ok s2 => ({ s2 with legacy := { s2.legacy with completed := none } }, true)
    | .error _ => (s, false)

/-- Model of `migrateFromLocalStorage` (lines 53-81): inspects the four legacy keys
in order — activities, presets, points, completed tasks — migrating each
present one into facade storage and deleting the legacy key; the first
failure aborts the rest, and the surrounding catch swallows the error, so
the call itself always returns. -/
def migrateFromLocalStorage (s : FacadeState) : FacadeState :=
  match migrateStepActivities s with
  | (s1, false) => s1
  | (s1, true) =>
    match migrateStepPresets s1 with
    | (s2, false) => s2
    | (s2, true) =>
      match migrateStepPoints s2 with
      | (s3, false) => s3
      | (s3, true) => (migrateStepCompleted s3).1

/-- Model of `initialize` (lines 33-51): a no-op when already initialized; otherwise
initializes the SQLite driver, and — whether that succeeded or threw — runs
the one-time legacy migration and sets the facade's `isInitialized` flag
before returning normally. -/
def initFacade (s : FacadeState) : Except String FacadeState :=
  if s.isInitialized then .ok s
  else
    match SQLiteStorageService.initDriver s with
    | .ok s1 => .ok { migrateFromLocalStorage s1 with isInitialized := true }
    | .error _ => .ok { migrateFromLocalStorage s with isInitialized := true }

/-- The `if (!this.isInitialized) await this.initialize()` prologue of
`savePreset` / `deletePreset` / `getPresetById` / `searchPresets`. The
error branch is dead: `initialize` always resolves. -/
def ensureInit (s : FacadeState) : FacadeState :=
  if s.isInitialized then s
  else
    match initFacade s with
    | .ok s2 => s2
    | .error _ => s

/-- Model of `savePreset` (lines 148-160): ensures initialization, then writes the
single preset through SQLite only — there is no Preferences fallback; any
SQLite error is logged and rethrown. -/
def savePreset (s : FacadeState) (p : Preset) : Except String FacadeState :=
  sqliteTryOp (ensureInit s) (fun db => SQLiteStorageService.savePreset db p)

/-- Removing a preset from the Preferences fallback copy (the shared body
of both cleanup paths of `deletePreset`): reads the `presets` blob, and
when present writes it back without the given preset. -/
def prefsDeletePresetCopy (s : FacadeState) (presetId : String) :
    Except String FacadeState :=
  if s.kvHealthy then
    match s.prefs.presets with
    | some ps =>
      .ok { s with prefs := { s.prefs with
              presets := some (ps.filter (fun q => !(q.id == presetId))) } }
    | none => .ok s
  else .error "Preferences read failed"

/-- Model of `deletePreset` (lines 162-208): ensures initialization, deletes from
SQLite, then best-effort removes the preset from the Preferences copy
(failures logged, not raised). If the SQLite delete fails, falls back to
deleting from the Preferences copy instead, rethrowing the *original*
SQLite error only when that fallback also fails. -/
def deletePreset (s : FacadeState) (presetId : String) :
    Except String FacadeState :=
  let s0 := ensureInit s
  match sqliteTryOp s0
      (fun db => SQLiteStorageService.deletePreset db presetId) with
  | .ok s1 =>
    match prefsDeletePresetCopy s1 presetId with
    | .ok s2 => .ok s2
    | .error _ => .ok s1
  | .error e =>
    match prefsDeletePresetCopy s0 presetId with
    | .ok s2 => .ok s2
    | .error _ => .error e

/-- Model of `clearAllData` (lines 527-530): removes exactly the keys `activities`,
`presets`, `totalPoints`, `completedTasks` and `calendarSyncData` from the
key-value store; nothing else is touched. -/
def clearAllData (s : FacadeState) : Except String FacadeState :=
  if s.kvHealthy then
    .ok { s with prefs := { s.prefs with
            activities := none, presets := none, totalPoints := none,
            completedTasks := none, calendarSyncData := none } }
  else .error "Preferences remove failed"

end DataPersistenceService

/-! ## Concrete fixtures used by witnesses and counterexamples -/

/-- A stored credential blob with a refresh token. -/
def fixtureCreds : GoogleCalendarCredentials :=
  { access_token := "tok1", refresh_token := some "rt", expires_in := 3600,
    token_type := "Bearer", scope := "calendar" }

/-- A connected calendar-service state whose credentials are only in
memory. -/
def fixtureCalState : CalState :=
  { credentials := some fixtureCreds, isConnected := true,
    storedCredentials := none, storedSyncStatus := none }

/-- A connected calendar-service state with the credentials also
persisted. -/
def fixtureCalStateStored : CalState :=
  { credentials := some fixtureCreds, isConnected := true,
    storedCredentials := some fixtureCreds, storedSyncStatus := none }

/-- A remote world answering 401 first, with a working token endpoint and a
succeeding retry. -/
def fixtureEnv401Success : ApiEnv :=
  { firstResponse := { status := 401 },
    refreshOutcome := .success "tok2", retryResponse := { status := 200 } }

/-- A remote world answering 401 first, with the token endpoint fetch
throwing a network error. -/
def fixtureEnv401Net : ApiEnv :=
  { firstResponse := { status := 401 },
    refreshOutcome := .netFail, retryResponse := { status := 200 } }

/-- An activity the fixture remote rejects. -/
def fixtureActA1 : Activity :=
  { id := "a1", title := "bad one", startTime := "09:00", endTime := "10:00",
    category := "Work", color := "#111", points := 1, description := none }

/-- An activity the fixture remote accepts. -/
def fixtureActA2 : Activity :=
  { id := "a2", title := "ok one", startTime := "10:00", endTime := "11:00",
    category := "Work", color := "#222", points := 2, description := none }

/-- A remote that accepts exactly the events summarized "ok one". -/
def fixtureSyncEnv : SyncEnv :=
  { createOk := fun ev => ev.summary == "ok one",
    nowIso := "2024-03-03T10:00:00Z" }

/-- A concrete target day. -/
def fixtureSyncDate : SyncDate := { dayStart := 0, isoDay := "2024-03-03" }

/-- The spec's event-time-correction scenario: start "10:00", end "09:30". -/
def fixtureActTea : Activity :=
  { id := "a9", title := "tea", startTime := "10:00", endTime := "09:30",
    category := "Leisure", color := "#333", points := 3, description := none }

/-- A concrete target day for the correction scenario. -/
def fixtureTeaDate : SyncDate :=
  { dayStart := 28512000, isoDay := "2024-03-20" }

/-- A completed-task fixture. -/
def fixtureTask : CompletedTask :=
  { id := "ct1", activityId := "a1", date := "2024-03-03", points := 10 }

/-- A preset fixture. -/
def fixturePreset : Preset :=
  { id := "p7", name := "evening", activities := [fixtureActA2],
    mood := some "calm", createdAt := "2024-03-01" }

/-- The empty structured store (post-`createTables` state). -/
def fixtureEmptyDb : SQLiteDB :=
  { presets := [], preset_activities := [], completed_tasks := [],
    points := { total_points := 0, daily_points := 0,
                last_activity_date := none } }

/-- An empty key-value store. -/
def fixturePrefsEmpty : Preferences :=
  { activities := none, presets := none, totalPoints := none,
    dailyPoints := none, completedTasks := none, loadedPresetId := none,
    lastActivityDate := none, calendarSyncData := none }

/-- A key-value store with every key populated. -/
def fixturePrefsFull : Preferences :=
  { activities := some [fixtureActA1], presets := some [fixturePreset],
    totalPoints := some 3, dailyPoints := some 5,
    completedTasks := some [fixtureTask], loadedPresetId := some "p7",
    lastActivityDate := some "2024-03-02",
    calendarSyncData := some { lastSyncDate := some "2024-03-03",
                               syncedActivities := ["a1"] } }

/-- An empty legacy store. -/
def fixtureLegacyEmpty : LegacyStore :=
  { activities := none, presets := none, points := none, completed := none }

/-- A legacy store with every key populated. -/
def fixtureLegacyFull : LegacyStore :=
  { activities := some [fixtureActA1], presets := some [fixturePreset],
    points := some 12, completed := some [fixtureTask] }

/-- A session whose structured-store initialize failed: the facade carries
on (`isInitialized = true`) with the driver down (`sqliteOk = false`) and a
healthy key-value store. -/
def fixtureFacadeBroken : FacadeState :=
  { isInitialized := true, sqliteAvailable := false, sqliteOk := false,
    db := fixtureEmptyDb, prefs := fixturePrefsEmpty,
    legacy := fixtureLegacyEmpty, kvHealthy := true }

/-- A broken-driver session with every key-value key populated. -/
def fixtureFacadeFull : FacadeState :=
  { isInitialized := true, sqliteAvailable := false, sqliteOk := false,
    db := fixtureEmptyDb, prefs := fixturePrefsFull,
    legacy := fixtureLegacyEmpty, kvHealthy := true }

/-- An uninitialized session with legacy data present and no SQLite
engine. -/
def fixtureFacadeUninit : FacadeState :=
  { isInitialized := false, sqliteAvailable := false, sqliteOk := false,
    db := fixtureEmptyDb, prefs := fixturePrefsEmpty,
    legacy := fixtureLegacyFull, kvHealthy := true }

theorem uniqueRowPairs_add (rows : List CompletedTaskRow) (t : CompletedTask)
    (h : UniqueRowPairs rows) :
    UniqueRowPairs (SQLiteStorageService.addCompletedTaskRows rows t) := by
  unfold UniqueRowPairs SQLiteStorageService.addCompletedTaskRows
  rw [List.pairwise_append]
  refine ⟨h.filter _, List.pairwise_singleton _ _, ?_⟩
  intro a ha b hb
  simp only [List.mem_singleton] at hb
  subst hb
  simp only [List.mem_filter, Bool.not_eq_true', Bool.or_eq_false_iff,
    Bool.and_eq_false_iff, beq_eq_false_iff_ne, ne_eq] at ha
  rintro ⟨h1, h2⟩
  rcases ha.2.2 with h' | h' <;> simp_all

theorem uniqueRowPairs_remove (rows : List CompletedTaskRow)
    (aid d : String) (h : UniqueRowPairs rows) :
    UniqueRowPairs (SQLiteStorageService.removeCompletedTaskRows rows aid d) :=
  h.filter _

theorem uniqueTaskPairs_add (ts : List CompletedTask) (t : CompletedTask)
    (h : UniqueTaskPairs ts) :
    UniqueTaskPairs (DataPersistenceService.fallbackAddCompletedTask ts t) := by
  unfold UniqueTaskPairs DataPersistenceService.fallbackAddCompletedTask
  rw [List.pairwise_append]
  refine ⟨h.filter _, List.pairwise_singleton _ _, ?_⟩
  intro a ha b hb
  simp only [List.mem_singleton] at hb
  subst hb
  simp only [List.mem_filter, Bool.not_eq_true', Bool.and_eq_false_iff,
    beq_eq_false_iff_ne, ne_eq] at ha
  rintro ⟨h1, h2⟩
  rcases ha.2 with h' | h' <;> simp_all

theorem uniqueTaskPairs_remove (ts : List CompletedTask) (aid d : String)
    (h : UniqueTaskPairs ts) :
    UniqueTaskPairs (DataPersistenceService.fallbackRemoveCompletedTask ts aid d) :=
  h.filter _

theorem runSqliteCTOps_unique (ops : List CTOp) (rows : List CompletedTaskRow)
    (h : UniqueRowPairs rows) : UniqueRowPairs (runSqliteCTOps ops rows) := by
  induction ops generalizing rows with
  | nil => exact h
  | cons op rest ih =>
    cases op with
    | add t => exact ih _ (uniqueRowPairs_add _ _ h)
    | remove aid d => exact ih _ (uniqueRowPairs_remove _ _ _ h)

theorem runFallbackCTOps_unique (ops : List CTOp) (ts : List CompletedTask)
    (h : UniqueTaskPairs ts) : UniqueTaskPairs (runFallbackCTOps ops ts) := by
  induction ops generalizing ts with
  | nil => exact h
  | cons op rest ih =>
    cases op with
    | add t => exact ih _ (uniqueTaskPairs_add _ _ h)
    | remove aid d => exact ih _ (uniqueTaskPairs_remove _ _ _ h)

theorem pairwise_filter_length_le {α : Type} (R : α → α → Prop)
    (p : α → Bool) (l : List α)
    (h : l.Pairwise R)
    (hp : ∀ a b, p a = true → p b = true → ¬R a b) :
    (l.filter p).length ≤ 1 := by
  induction l with
  | nil => simp
  | cons a rest ih =>
    rw [List.pairwise_cons] at h
    by_cases hpa : p a = true
    · rw [List.filter_cons_of_pos hpa]
      have : rest.filter p = [] := by
        rw [List.filter_eq_nil_iff]
        intro b hb hpb
        exact hp a b hpa hpb (h.1 b hb)
      simp [this]
    · rw [List.filter_cons_of_neg (by simpa using hpa)]
      exact ih h.2

/-- C2: for every `(activityId, date)` pair, after any sequence of
`addCompletedTask` / `removeCompletedTask` calls starting from the empty
collection, at most one completed task with that pair exists — on the
structured-store path (`INSERT OR REPLACE` against the primary key and the
`UNIQUE(activity_id, date)` constraint, plain `DELETE`) and on the
key-value fallback path (filter-then-append, filter). -/
theorem completedTask_pair_unique (ops : List CTOp) (aid d : String) :
    ((runSqliteCTOps ops []).filter
        (fun r => r.activity_id == aid && r.date == d)).length ≤ 1 ∧
    ((runFallbackCTOps ops []).filter
        (fun t => t.activityId == aid && t.date == d)).length ≤ 1 := by
  constructor
  · refine pairwise_filter_length_le _ _ _
      (runSqliteCTOps_unique ops [] (List.Pairwise.nil)) ?_
    intro a b ha hb
    simp only [Bool.and_eq_true, beq_iff_eq] at ha hb
    intro hR
    exact hR ⟨ha.1.trans hb.1.symm, ha.2.trans hb.2.symm⟩
  · refine pairwise_filter_length_le _ _ _
      (runFallbackCTOps_unique ops [] (List.Pairwise.nil)) ?_
    intro a b ha hb
    simp only [Bool.and_eq_true, beq_iff_eq] at ha hb
    intro hR
    exact hR ⟨ha.1.trans hb.1.symm, ha.2.trans hb.2.symm⟩

/-! ## Round-trip of `savePreset` / `loadPresets` (C3) -/

theorem orNull_orNull (d : Option String) : orNull (orNull d) = orNull d := by
  cases d with
  | none => rfl
  | some s =>
    by_cases h : s = "" <;> simp [orNull, h]

theorem orNull_eq_self (d : Option String) (h : d ≠ some "") : orNull d = d := by
  cases d with
  | none => rfl
  | some s =>
    have : s ≠ "" := fun hs => h (by rw [hs])
    simp [orNull, this]

theorem insertPresetActivities_ok (presetId : String) (acts : List Activity) :
    ∀ (rows out : List ActivityRow) (i : Nat),
      SQLiteStorageService.insertPresetActivities rows presetId i acts =
        .ok out →
      out = rows ++ rowsFrom presetId i acts := by
  induction acts with
  | nil =>
    intro rows out i h
    simp only [SQLiteStorageService.insertPresetActivities, Except.ok.injEq] at h
    simp [rowsFrom, h]
  | cons a rest ih =>
    intro rows out i h
    simp only [SQLiteStorageService.insertPresetActivities] at h
    split at h
    · exact absurd h (by simp)
    · have h2 := ih _ _ _ h
      simp [rowsFrom, h2, List.append_assoc]

theorem rowsFrom_preset_id (presetId : String) (acts : List Activity) :
    ∀ (i : Nat) (r : ActivityRow), r ∈ rowsFrom presetId i acts →
      r.preset_id = presetId := by
  induction acts with
  | nil => intro i r h; simp [rowsFrom] at h
  | cons a rest ih =>
    intro i r h
    simp only [rowsFrom, List.mem_cons] at h
    cases h with
    | inl h => subst h; rfl
    | inr h => exact ih _ _ h

theorem rowsFrom_filter_preset_id (presetId : String) (acts : List Activity)
    (i : Nat) :
    (rowsFrom presetId i acts).filter (fun r => r.preset_id == presetId) =
      rowsFrom presetId i acts := by
  rw [List.filter_eq_self]
  intro r hr
  simp [rowsFrom_preset_id presetId acts i r hr]

theorem filter_preset_id_of_filter_ne (l : List ActivityRow) (presetId : String) :
    (l.filter (fun r => !(r.preset_id == presetId))).filter
      (fun r => r.preset_id == presetId) = [] := by
  rw [List.filter_eq_nil_iff]
  intro r hr
  rcases List.mem_filter.mp hr with ⟨_, hne⟩
  simp_all

theorem rowsFrom_sort_order_ge (presetId : String) (acts : List Activity) :
    ∀ (i : Nat) (r : ActivityRow), r ∈ rowsFrom presetId i acts →
      i ≤ r.sort_order := by
  induction acts with
  | nil => intro i r h; simp [rowsFrom] at h
  | cons a rest ih =>
    intro i r h
    simp only [rowsFrom, List.mem_cons] at h
    cases h with
    | inl h => subst h; exact Nat.le_refl i
    | inr h => exact Nat.le_of_succ_le (ih _ _ h)

theorem rowsFrom_sorted (presetId : String) (acts : List Activity) (i : Nat) :
    List.Sorted (fun a b : ActivityRow => a.sort_order ≤ b.sort_order)
      (rowsFrom presetId i acts) := by
  induction acts generalizing i with
  | nil => simp [rowsFrom]
  | cons a rest ih =>
    rw [rowsFrom, List.sorted_cons]
    refine ⟨fun b hb => ?_, ih _⟩
    exact Nat.le_of_succ_le (rowsFrom_sort_order_ge presetId rest _ b hb)

theorem rowToActivity_activityToRow (presetId : String) (i : Nat)
    (a : Activity) (h : a.description ≠ some "") :
    SQLiteStorageService.rowToActivity
      (SQLiteStorageService.activityToRow presetId i a) = a := by
  cases a with
  | mk id title startTime endTime category color points description =>
    simp only [SQLiteStorageService.rowToActivity,
      SQLiteStorageService.activityToRow, orNull_orNull]
    rw [orNull_eq_self _ h]

theorem map_rowToActivity_rowsFrom (presetId : String) (acts : List Activity)
    (hdesc : ∀ a ∈ acts, a.description ≠ some "") :
    ∀ i : Nat, (rowsFrom presetId i acts).map
      SQLiteStorageService.rowToActivity = acts := by
  induction acts with
  | nil => intro i; simp [rowsFrom]
  | cons a rest ih =>
    intro i
    simp only [rowsFrom, List.map_cons]
    rw [rowToActivity_activityToRow presetId i a (hdesc a (by simp)),
      ih (fun b hb => hdesc b (by simp [hb]))]

/-- C3 (amended): for every preset `P` all of whose activities have either no
description or a non-empty one, if `savePreset P` succeeds then
`loadPresets()` yields a preset with `P`'s id whose activity list equals
`P`'s activity list in the same order: `savePreset` persists each activity
with its list index as the `sort_order` column after deleting prior activity
rows, and `loadPresets` reads activities back ordered by `sort_order`
ascending. -/
theorem savePreset_loadPresets_order_roundTrip (db db' : SQLiteDB) (p : Preset)
    (hsave : SQLiteStorageService.savePreset db p = .ok db')
    (hdesc : ∀ a ∈ p.activities, a.description ≠ some "") :
    ∃ q ∈ SQLiteStorageService.loadPresets db',
      q.id = p.id ∧ q.activities = p.activities := by
  simp only [SQLiteStorageService.savePreset, bind, Except.bind] at hsave
  cases hins : SQLiteStorageService.insertPresetActivities
      (db.preset_activities.filter (fun r => !(r.preset_id == p.id))) p.id 0
      p.activities with
  | error e => rw [hins] at hsave; exact absurd hsave (by simp)
  | ok rows =>
    rw [hins] at hsave
    simp only [Except.ok.injEq] at hsave
    have hrows := insertPresetActivities_ok p.id p.activities _ _ _ hins
    subst hsave
    -- the fresh preset row
    set newRow : PresetRow :=
      { id := p.id, name := p.name, mood := orNull p.mood,
        created_at := p.createdAt } with hnewRow
    have hmem : newRow ∈
        (db.presets.filter (fun r => !(r.id == p.id)) ++ [newRow]) := by
      simp
    have hmemSorted : newRow ∈
        (db.presets.filter (fun r => !(r.id == p.id)) ++
          [newRow]).insertionSort (fun a b => b.created_at ≤ a.created_at) :=
      (List.perm_insertionSort _ _).mem_iff.mpr hmem
    refine ⟨_, List.mem_map_of_mem _ hmemSorted, rfl, ?_⟩
    -- the loaded activity list for preset id p.id
    show SQLiteStorageService.loadActivitiesFor _ newRow.id = p.activities
    unfold SQLiteStorageService.loadActivitiesFor
    simp only [hrows]
    rw [List.filter_append, filter_preset_id_of_filter_ne,
      rowsFrom_filter_preset_id, List.nil_append,
      List.Sorted.insertionSort_eq (rowsFrom_sorted p.id p.activities 0),
      map_rowToActivity_rowsFrom p.id p.activities hdesc 0]

/-- Witness for `savePreset_loadPresets_order_roundTrip`: a concrete
two-activity preset saved into the empty database round-trips with its
activity order intact. -/
theorem savePreset_loadPresets_order_roundTrip_witness :
    ∃ q ∈ SQLiteStorageService.loadPresets
      { presets := [{ id := "p2", name := "morning", mood := none,
                      created_at := "2024-02-02" }],
        preset_activities :=
          [{ id := "a1", preset_id := "p2", title := "run",
             start_time := "07:00", end_time := "08:00", category := "Fitness",
             points := 10, description := none, color := "#0f0",
             sort_order := 0 },
           { id := "a2", preset_id := "p2", title := "read",
             start_time := "08:00", end_time := "09:00", category := "Leisure",
             points := 5, description := some "novel", color := "#00f",
             sort_order := 1 }],
        completed_tasks := [],
        points := { total_points := 0, daily_points := 0,
                    last_activity_date := none } },
      q.id = "p2" ∧ q.activities =
        [{ id := "a1", title := "run", startTime := "07:00",
           endTime := "08:00", category := "Fitness", color := "#0f0",
           points := 10, description := none },
         { id := "a2", title := "read", startTime := "08:00",
           endTime := "09:00", category := "Leisure", color := "#00f",
           points := 5, description := some "novel" }] :=
  savePreset_loadPresets_order_roundTrip
    { presets := [], preset_activities := [], completed_tasks := [],
      points := { total_points := 0, daily_points := 0,
                  last_activity_date := none } }
    _
    { id := "p2", name := "morning",
      activities :=
        [{ id := "a1", title := "run", startTime := "07:00",
           endTime := "08:00", category := "Fitness", color := "#0f0",
           points := 10, description := none },
         { id := "a2", title := "read", startTime := "08:00",
           endTime := "09:00", category := "Leisure", color := "#00f",
           points := 5, description := some "novel" }],
      mood := none, createdAt := "2024-02-02" }
    rfl (by decide)

/-- C3 counterexample: an activity whose `description` is the empty string
does not round-trip — `savePreset` stores `activity.description || null`,
collapsing `""` to `NULL`, and `loadPresets` reads it back as absent, so the
loaded activity list differs from the saved one. -/
theorem savePreset_loadPresets_roundTrip_cex :
    ∃ db' : SQLiteDB,
      SQLiteStorageService.savePreset
        { presets := [], preset_activities := [], completed_tasks := [],
          points := { total_points := 0, daily_points := 0,
                      last_activity_date := none } }
        { id := "p1", name := "n",
          activities := [{ id := "a1", title := "t", startTime := "10:00",
                           endTime := "11:00", category := "Work",
                           color := "#fff", points := 5,
                           description := some "" }],
          mood := none, createdAt := "2024-01-01" } = Except.ok db' ∧
      ¬ ∃ q ∈ SQLiteStorageService.loadPresets db',
          q.id = "p1" ∧ q.activities =
            [{ id := "a1", title := "t", startTime := "10:00",
               endTime := "11:00", category := "Work", color := "#fff",
               points := 5, description := some "" }] :=
  ⟨{ presets := [{ id := "p1", name := "n", mood := none,
                   created_at := "2024-01-01" }],
     preset_activities := [{ id := "a1", preset_id := "p1", title := "t",
                             start_time := "10:00", end_time := "11:00",
                             category := "Work", points := 5,
                             description := none, color := "#fff",
                             sort_order := 0 }],
     completed_tasks := [],
     points := { total_points := 0, daily_points := 0,
                 last_activity_date := none } },
   rfl, by decide⟩


/-! ## 401 refresh-and-retry (C5) -/

/-- C5 (amended): on every remote API request with credentials present, a
non-401 response triggers no refresh and no retry; a 401 triggers exactly
one refresh attempt, and on refresh success the original request is retried
exactly once with the new token and the retry's response is returned. If
the refresh fails, the original 401 response is surfaced; however the
stored credentials are cleared only when the token endpoint answers with a
non-OK response — when the refresh attempt fails with a network error, or
no refresh token is stored, the credentials are left in place. -/
theorem makeApiRequest_refresh_retry (env : ApiEnv) (s : CalState)
    (c : GoogleCalendarCredentials) (hc : s.credentials = some c) :
    (¬ env.firstResponse.status = 401 →
      CalendarSyncService.makeApiRequest env s =
        .ok (env.firstResponse, s, [c.access_token], 0)) ∧
    (env.firstResponse.status = 401 → c.refresh_token = none →
      CalendarSyncService.makeApiRequest env s =
        .ok (env.firstResponse, s, [c.access_token], 1)) ∧
    (env.firstResponse.status = 401 → c.refresh_token.isSome = true →
      CalendarSyncService.makeApiRequest env s =
        .ok (match env.refreshOutcome with
          | .success tok =>
            (env.retryResponse,
             { s with credentials := some { c with access_token := tok },
                      storedCredentials := some { c with access_token := tok } },
             [c.access_token, tok], 1)
          | .httpFail =>
            (env.firstResponse, CalendarSyncService.clearCredentials s,
             [c.access_token], 1)
          | .netFail => (env.firstResponse, s, [c.access_token], 1))) := by
  refine ⟨fun h401 => ?_, fun h401 hrt => ?_, fun h401 hrt => ?_⟩
  · simp [CalendarSyncService.makeApiRequest, hc, h401]
  · simp [CalendarSyncService.makeApiRequest, CalendarSyncService.refreshToken,
      hc, h401, hrt]
  · rcases Option.isSome_iff_exists.mp hrt with ⟨rt, hrt2⟩
    cases hout : env.refreshOutcome with
    | success tok =>
      simp [CalendarSyncService.makeApiRequest,
        CalendarSyncService.refreshToken, hc, h401, hrt2, hout]
    | httpFail =>
      simp [CalendarSyncService.makeApiRequest,
        CalendarSyncService.refreshToken, hc, h401, hrt2, hout]
    | netFail =>
      simp [CalendarSyncService.makeApiRequest,
        CalendarSyncService.refreshToken, hc, h401, hrt2, hout]

/-- Witness for `makeApiRequest_refresh_retry`: a concrete connected state
with a 401 first response and a successful refresh. -/
theorem makeApiRequest_refresh_retry_witness :
    (¬ fixtureEnv401Success.firstResponse.status = 401 →
      CalendarSyncService.makeApiRequest fixtureEnv401Success fixtureCalState =
        .ok (fixtureEnv401Success.firstResponse, fixtureCalState,
          [fixtureCreds.access_token], 0)) ∧
    (fixtureEnv401Success.firstResponse.status = 401 →
      fixtureCreds.refresh_token = none →
      CalendarSyncService.makeApiRequest fixtureEnv401Success fixtureCalState =
        .ok (fixtureEnv401Success.firstResponse, fixtureCalState,
          [fixtureCreds.access_token], 1)) ∧
    (fixtureEnv401Success.firstResponse.status = 401 →
      fixtureCreds.refresh_token.isSome = true →
      CalendarSyncService.makeApiRequest fixtureEnv401Success fixtureCalState =
        .ok (match fixtureEnv401Success.refreshOutcome with
          | .success tok =>
            (fixtureEnv401Success.retryResponse,
             { fixtureCalState with
                 credentials := some { fixtureCreds with access_token := tok },
                 storedCredentials :=
                   some { fixtureCreds with access_token := tok } },
             [fixtureCreds.access_token, tok], 1)
          | .httpFail =>
            (fixtureEnv401Success.firstResponse,
             CalendarSyncService.clearCredentials fixtureCalState,
             [fixtureCreds.access_token], 1)
          | .netFail =>
            (fixtureEnv401Success.firstResponse, fixtureCalState,
             [fixtureCreds.access_token], 1))) :=
  makeApiRequest_refresh_retry fixtureEnv401Success fixtureCalState
    fixtureCreds rfl

/-- C5 counterexample: with a refresh token stored, a 401 first response,
and a refresh attempt that fails with a *network* error, `refreshToken`'s
catch block returns failure without clearing anything: the original 401 is
surfaced but the stored credentials are NOT cleared, contrary to the claim
that a failed refresh clears the credentials. -/
theorem makeApiRequest_netFail_keeps_credentials_cex :
    CalendarSyncService.makeApiRequest fixtureEnv401Net fixtureCalStateStored =
      .ok (fixtureEnv401Net.firstResponse, fixtureCalStateStored,
        [fixtureCreds.access_token], 1) ∧
    fixtureCalStateStored.storedCredentials ≠ none ∧
    fixtureCalStateStored.credentials ≠ none :=
  ⟨rfl, by decide, by decide⟩

/-! ## Batch sync semantics (C6) -/

theorem syncLoop_attempted (env : SyncEnv) (d : SyncDate)
    (acts : List Activity) :
    (CalendarSyncService.syncLoop env d acts).2.2 =
      acts.map (fun a => a.id) := by
  induction acts with
  | nil => rfl
  | cons a rest ih =>
    simp only [CalendarSyncService.syncLoop, List.map_cons]
    cases hev : CalendarSyncService.createCalendarEvent a d with
    | ok ev =>
      by_cases hok : env.createOk ev = true
      · simp [hok, ih]
      · simp only [Bool.not_eq_true] at hok
        simp [hok, ih]
    | error e => simp [ih]

theorem syncLoop_success_iff (env : SyncEnv) (d : SyncDate)
    (acts : List Activity) :
    0 < (CalendarSyncService.syncLoop env d acts).1 ↔
      ∃ a ∈ acts, ∃ ev, CalendarSyncService.createCalendarEvent a d = .ok ev ∧
        env.createOk ev = true := by
  induction acts with
  | nil => simp [CalendarSyncService.syncLoop]
  | cons a rest ih =>
    cases hev : CalendarSyncService.createCalendarEvent a d with
    | ok ev =>
      by_cases hok : env.createOk ev = true
      · constructor
        · intro _
          exact ⟨a, List.mem_cons_self a rest, ev, hev, hok⟩
        · intro _
          simp only [CalendarSyncService.syncLoop, hev, hok, if_true]
          omega
      · have hok2 : env.createOk ev = false := by simpa using hok
        constructor
        · intro hpos
          simp only [CalendarSyncService.syncLoop, hev, hok2,
            Bool.false_eq_true, if_false] at hpos
          rcases ih.mp hpos with ⟨b, hb, hx⟩
          exact ⟨b, List.mem_cons_of_mem a hb, hx⟩
        · rintro ⟨b, hb, ev2, hev2, hok3⟩
          rcases List.mem_cons.mp hb with rfl | hb2
          · rw [hev] at hev2
            injection hev2 with hev3
            subst hev3
            rw [hok3] at hok2
            exact absurd hok2 (by simp)
          · have hrest := ih.mpr ⟨b, hb2, ev2, hev2, hok3⟩
            simp only [CalendarSyncService.syncLoop, hev, hok2,
              Bool.false_eq_true, if_false]
            omega
    | error e =>
      constructor
      · intro hpos
        simp only [CalendarSyncService.syncLoop, hev] at hpos
        rcases ih.mp hpos with ⟨b, hb, hx⟩
        exact ⟨b, List.mem_cons_of_mem a hb, hx⟩
      · rintro ⟨b, hb, ev2, hev2, hok3⟩
        rcases List.mem_cons.mp hb with rfl | hb2
        · rw [hev] at hev2
          exact absurd hev2 (by simp)
        · have hrest := ih.mpr ⟨b, hb2, ev2, hev2, hok3⟩
          simp only [CalendarSyncService.syncLoop, hev]
          omega

/-- C6: for every connected session and activity list,
`syncActivitiesToCalendar` attempts every activity (in input order, even
after individual failures), returns `true` iff at least one activity's
event creation succeeded, and always records a sync status consisting of
the current timestamp and the id of every input activity, regardless of
per-item outcomes. -/
theorem syncActivitiesToCalendar_batch (env : SyncEnv) (s : CalState)
    (acts : List Activity) (d : SyncDate)
    (hconn : s.isConnected = true) (hcred : s.credentials.isSome = true) :
    ∃ b s2,
      CalendarSyncService.syncActivitiesToCalendar env s acts d = .ok (b, s2) ∧
      (CalendarSyncService.syncLoop env d acts).2.2 =
        acts.map (fun a => a.id) ∧
      (b = true ↔ ∃ a ∈ acts, ∃ ev,
        CalendarSyncService.createCalendarEvent a d = .ok ev ∧
        env.createOk ev = true) ∧
      s2.storedSyncStatus = some
        { lastSyncDate := some env.nowIso,
          syncedActivities := acts.map (fun a => a.id) } := by
  have h : CalendarSyncService.syncActivitiesToCalendar env s acts d =
      .ok (decide (0 < (CalendarSyncService.syncLoop env d acts).1),
        { s with storedSyncStatus := some { lastSyncDate := some env.nowIso,
                                            syncedActivities :=
                                              acts.map (fun a => a.id) } }) := by
    simp [CalendarSyncService.syncActivitiesToCalendar, hconn, hcred]
  refine ⟨_, _, h, syncLoop_attempted env d acts, ?_, rfl⟩
  rw [decide_eq_true_iff]
  exact syncLoop_success_iff env d acts

/-- Witness for `syncActivitiesToCalendar_batch`: a connected two-activity
batch where the remote rejects the first activity's event and accepts the
second. -/
theorem syncActivitiesToCalendar_batch_witness :
    ∃ b s2,
      CalendarSyncService.syncActivitiesToCalendar fixtureSyncEnv
        fixtureCalState [fixtureActA1, fixtureActA2] fixtureSyncDate =
        .ok (b, s2) ∧
      (CalendarSyncService.syncLoop fixtureSyncEnv fixtureSyncDate
        [fixtureActA1, fixtureActA2]).2.2 =
        [fixtureActA1, fixtureActA2].map (fun a => a.id) ∧
      (b = true ↔ ∃ a ∈ [fixtureActA1, fixtureActA2], ∃ ev,
        CalendarSyncService.createCalendarEvent a fixtureSyncDate = .ok ev ∧
        fixtureSyncEnv.createOk ev = true) ∧
      s2.storedSyncStatus = some
        { lastSyncDate := some fixtureSyncEnv.nowIso,
          syncedActivities :=
            [fixtureActA1, fixtureActA2].map (fun a => a.id) } :=
  syncActivitiesToCalendar_batch fixtureSyncEnv fixtureCalState
    [fixtureActA1, fixtureActA2] fixtureSyncDate rfl rfl

/-! ## Event end-time correction (C7) -/

/-- C7: for every activity whose computed end instant (target date combined
with the `HH:MM` field) is less than or equal to its computed start
instant, the remote calendar event built for it ends exactly 60 minutes
after its start; an activity whose computed end is strictly after its start
keeps the computed end unchanged. -/
theorem createCalendarEvent_end_correction (a : Activity) (d : SyncDate)
    (sm em : Nat)
    (hs : parseTimeOfDay a.startTime = some sm)
    (he : parseTimeOfDay a.endTime = some em) :
    ∃ ev, CalendarSyncService.createCalendarEvent a d = .ok ev ∧
      ev.startMinutes = d.dayStart + sm ∧
      (d.dayStart + em ≤ d.dayStart + sm →
        ev.endMinutes = ev.startMinutes + 60) ∧
      (d.dayStart + sm < d.dayStart + em →
        ev.endMinutes = d.dayStart + em) := by
  simp only [CalendarSyncService.createCalendarEvent, hs, he]
  refine ⟨_, rfl, rfl, fun hle => ?_, fun hlt => ?_⟩
  · simp only [if_pos hle]
  · simp only [if_neg (by omega : ¬ d.dayStart + (em : Int) ≤ d.dayStart + sm)]

/-- Witness for `createCalendarEvent_end_correction`: the spec's own
scenario — startTime "10:00", endTime "09:30" (end before start) on a
concrete day — where the built event must end 60 minutes after its
start. -/
theorem createCalendarEvent_end_correction_witness :
    ∃ ev, CalendarSyncService.createCalendarEvent fixtureActTea
        fixtureTeaDate = .ok ev ∧
      ev.startMinutes = fixtureTeaDate.dayStart + 600 ∧
      (fixtureTeaDate.dayStart + 570 ≤ fixtureTeaDate.dayStart + 600 →
        ev.endMinutes = ev.startMinutes + 60) ∧
      (fixtureTeaDate.dayStart + 600 < fixtureTeaDate.dayStart + 570 →
        ev.endMinutes = fixtureTeaDate.dayStart + 570) :=
  createCalendarEvent_end_correction fixtureActTea fixtureTeaDate 600 570
    (by decide) (by decide)

/-! ## Operation queue (C9) -/

/-- C9: for every sequence of outcomes submitted through the operation
queue, draining the promise chain executes every operation, one after
another in submission order, settles each caller's promise with exactly its
own operation's outcome, and a rejection of one queued operation is never
propagated to later-queued operations: with `.catch(() => {})` interposed
at every link the chain handed to each operation is always fulfilled, so
the queue continues draining past failures. -/
theorem queueOperation_isolation {α : Type} (ops : List (Except String α)) :
    SQLiteStorageService.runQueue (.ok ()) ops =
      (ops.map Option.some, ops.map (fun _ => true)) := by
  induction ops with
  | nil => rfl
  | cons op rest ih =>
    cases op with
    | ok a =>
      simp [SQLiteStorageService.runQueue, SQLiteStorageService.queueStep,
        SQLiteStorageService.chainCatch, ih]
    | error e =>
      simp [SQLiteStorageService.runQueue, SQLiteStorageService.queueStep,
        SQLiteStorageService.chainCatch, ih]

/-! ## Facade preset operations under a failed driver initialize (C1) -/

/-- C1 (amended): if the Structured Store's `initialize()` has failed for
the session (`isInitialized = true`, driver down), then: `loadPresets`
never raises and serves the Key-Value copy (or `[]`); `savePresets`
completes through the Key-Value Store while it is healthy, and when the
Key-Value write also fails it propagates the *fallback* error, not the
original one; `deletePreset` completes through the Key-Value copy while it
is healthy and propagates the original structured-store error when both
paths fail; `savePreset` however has no Key-Value fallback at all and
always propagates the structured-store error, even with a healthy
Key-Value Store. -/
theorem facade_preset_ops_after_init_failure (s : FacadeState)
    (ps : List Preset) (p : Preset) (presetId : String)
    (hinit : s.isInitialized = true) (hnok : s.sqliteOk = false) :
    (DataPersistenceService.loadPresets s =
      (if s.kvHealthy then (s.prefs.presets).getD [] else [])) ∧
    (s.kvHealthy = true → ∃ s2,
      DataPersistenceService.savePresets s ps = .ok s2 ∧
      (ps ≠ [] → s2.prefs.presets = some ps)) ∧
    (s.kvHealthy = false → ps ≠ [] →
      DataPersistenceService.savePresets s ps =
        .error "Preferences write failed") ∧
    (s.kvHealthy = true → ∃ s2,
      DataPersistenceService.deletePreset s presetId = .ok s2 ∧
      s2.prefs.presets = (s.prefs.presets).map
        (fun l => l.filter (fun q => !(q.id == presetId)))) ∧
    (s.kvHealthy = false →
      DataPersistenceService.deletePreset s presetId =
        .error "Database not initialized") ∧
    DataPersistenceService.savePreset s p =
      .error "Database not initialized" := by
  have hens : DataPersistenceService.ensureInit s = s := by
    simp [DataPersistenceService.ensureInit, hinit]
  refine ⟨?_, ?_, ?_, ?_, ?_, ?_⟩
  · simp [DataPersistenceService.loadPresets, hinit, hnok]
  · intro hkv
    cases ps with
    | nil =>
      refine ⟨s, ?_, fun h => absurd rfl h⟩
      simp [DataPersistenceService.savePresets, hinit,
        DataPersistenceService.savePresetsSqliteLoop]
    | cons q qs =>
      refine ⟨{ s with prefs := { s.prefs with presets := some (q :: qs) } },
        ?_, fun _ => rfl⟩
      simp [DataPersistenceService.savePresets, hinit,
        DataPersistenceService.savePresetsSqliteLoop, sqliteTryOp, hnok,
        prefSet, hkv]
  · intro hkv hne
    cases ps with
    | nil => exact absurd rfl hne
    | cons q qs =>
      simp [DataPersistenceService.savePresets, hinit,
        DataPersistenceService.savePresetsSqliteLoop, sqliteTryOp, hnok,
        prefSet, hkv]
  · intro hkv
    cases hpp : s.prefs.presets with
    | none =>
      refine ⟨s, ?_, by simp [hpp]⟩
      simp [DataPersistenceService.deletePreset, hens, sqliteTryOp, hnok,
        DataPersistenceService.prefsDeletePresetCopy, hkv, hpp]
    | some l =>
      refine ⟨{ s with prefs := { s.prefs with
          presets := some (l.filter (fun q => !(q.id == presetId))) } },
        ?_, by simp [hpp]⟩
      simp [DataPersistenceService.deletePreset, hens, sqliteTryOp, hnok,
        DataPersistenceService.prefsDeletePresetCopy, hkv, hpp]
  · intro hkv
    simp [DataPersistenceService.deletePreset, hens, sqliteTryOp, hnok,
      DataPersistenceService.prefsDeletePresetCopy, hkv]
  · simp [DataPersistenceService.savePreset, hens, sqliteTryOp, hnok]

/-- Witness for `facade_preset_ops_after_init_failure`: the concrete
broken-driver session with a healthy key-value store. -/
theorem facade_preset_ops_after_init_failure_witness :
    (DataPersistenceService.loadPresets fixtureFacadeBroken =
      (if fixtureFacadeBroken.kvHealthy then
        (fixtureFacadeBroken.prefs.presets).getD [] else [])) ∧
    (fixtureFacadeBroken.kvHealthy = true → ∃ s2,
      DataPersistenceService.savePresets fixtureFacadeBroken [fixturePreset] =
        .ok s2 ∧
      ([fixturePreset] ≠ [] → s2.prefs.presets = some [fixturePreset])) ∧
    (fixtureFacadeBroken.kvHealthy = false → [fixturePreset] ≠ [] →
      DataPersistenceService.savePresets fixtureFacadeBroken [fixturePreset] =
        .error "Preferences write failed") ∧
    (fixtureFacadeBroken.kvHealthy = true → ∃ s2,
      DataPersistenceService.deletePreset fixtureFacadeBroken "p7" = .ok s2 ∧
      s2.prefs.presets = (fixtureFacadeBroken.prefs.presets).map
        (fun l => l.filter (fun q => !(q.id == "p7")))) ∧
    (fixtureFacadeBroken.kvHealthy = false →
      DataPersistenceService.deletePreset fixtureFacadeBroken "p7" =
        .error "Database not initialized") ∧
    DataPersistenceService.savePreset fixtureFacadeBroken fixturePreset =
      .error "Database not initialized" :=
  facade_preset_ops_after_init_failure fixtureFacadeBroken [fixturePreset]
    fixturePreset "p7" rfl rfl

/-- C1 counterexample: in a session whose structured-store initialize
failed, with a perfectly healthy Key-Value Store, `savePreset` still throws
the structured-store error to the caller — it has no Key-Value fallback —
refuting the claim that every preset write completes via the Key-Value
Store with no exception escaping. -/
theorem savePreset_no_kv_fallback_cex :
    DataPersistenceService.savePreset fixtureFacadeBroken fixturePreset =
      .error "Database not initialized" ∧
    fixtureFacadeBroken.kvHealthy = true ∧
    fixtureFacadeBroken.isInitialized = true ∧
    fixtureFacadeBroken.sqliteOk = false :=
  ⟨rfl, rfl, rfl, rfl⟩

/-! ## Legacy migration idempotence (C4) -/

theorem migrate_kvFalse (s : FacadeState) (hkv : s.kvHealthy = false)
    (hi : s.isInitialized = false) :
    DataPersistenceService.migrateFromLocalStorage s = s := by
  cases ha : s.legacy.activities <;> cases hp : s.legacy.presets <;>
    cases hq : s.legacy.points <;> cases hc : s.legacy.completed <;>
      simp [DataPersistenceService.migrateFromLocalStorage,
        DataPersistenceService.migrateStepActivities,
        DataPersistenceService.migrateStepPresets,
        DataPersistenceService.migrateStepPoints,
        DataPersistenceService.migrateStepCompleted,
        DataPersistenceService.saveActivities,
        DataPersistenceService.savePresets,
        DataPersistenceService.saveTotalPoints,
        DataPersistenceService.saveCompletedTasks,
        prefSet, hkv, hi, ha, hp, hq, hc]

theorem legacy_eq_empty (l : LegacyStore) (h1 : l.activities = none)
    (h2 : l.presets = none) (h3 : l.points = none)
    (h4 : l.completed = none) :
    l = { activities := none, presets := none, points := none,
          completed := none } := by
  cases l
  simp_all

theorem migrate_kvTrue_clears (s : FacadeState) (hkv : s.kvHealthy = true)
    (hi : s.isInitialized = false) :
    (DataPersistenceService.migrateFromLocalStorage s).legacy.activities = none ∧
    (DataPersistenceService.migrateFromLocalStorage s).legacy.presets = none ∧
    (DataPersistenceService.migrateFromLocalStorage s).legacy.points = none ∧
    (DataPersistenceService.migrateFromLocalStorage s).legacy.completed = none ∧
    (DataPersistenceService.migrateFromLocalStorage s).kvHealthy = true ∧
    (DataPersistenceService.migrateFromLocalStorage s).isInitialized = false := by
  cases ha : s.legacy.activities <;> cases hp : s.legacy.presets <;>
    cases hq : s.legacy.points <;> cases hc : s.legacy.completed <;>
      simp [DataPersistenceService.migrateFromLocalStorage,
        DataPersistenceService.migrateStepActivities,
        DataPersistenceService.migrateStepPresets,
        DataPersistenceService.migrateStepPoints,
        DataPersistenceService.migrateStepCompleted,
        DataPersistenceService.saveActivities,
        DataPersistenceService.savePresets,
        DataPersistenceService.saveTotalPoints,
        DataPersistenceService.saveCompletedTasks,
        prefSet, hkv, hi, ha, hp, hq, hc]

theorem migrate_clean (s : FacadeState)
    (h1 : s.legacy.activities = none) (h2 : s.legacy.presets = none)
    (h3 : s.legacy.points = none) (h4 : s.legacy.completed = none) :
    DataPersistenceService.migrateFromLocalStorage s = s := by
  simp [DataPersistenceService.migrateFromLocalStorage,
    DataPersistenceService.migrateStepActivities,
    DataPersistenceService.migrateStepPresets,
    DataPersistenceService.migrateStepPoints,
    DataPersistenceService.migrateStepCompleted, h1, h2, h3, h4]

/-- C4: legacy migration is idempotent — run from a pre-initialization
session state, running `migrateFromLocalStorage` twice produces the same
end state as running it once, and (with a working key-value store) every
legacy key is absent after the first run, so the second run is a no-op. -/
theorem migrateFromLocalStorage_idempotent (s : FacadeState)
    (hinit : s.isInitialized = false) :
    DataPersistenceService.migrateFromLocalStorage
      (DataPersistenceService.migrateFromLocalStorage s) =
      DataPersistenceService.migrateFromLocalStorage s ∧
    (s.kvHealthy = true →
      (DataPersistenceService.migrateFromLocalStorage s).legacy =
        { activities := none, presets := none, points := none,
          completed := none }) := by
  cases hkv : s.kvHealthy with
  | false =>
    have h1 := migrate_kvFalse s hkv hinit
    exact ⟨by rw [h1]; exact h1, fun h => absurd h (by simp [hkv])⟩
  | true =>
    obtain ⟨hl1, hl2, hl3, hl4, hkv2, hi2⟩ := migrate_kvTrue_clears s hkv hinit
    exact ⟨migrate_clean _ hl1 hl2 hl3 hl4,
      fun _ => legacy_eq_empty _ hl1 hl2 hl3 hl4⟩

/-- Witness for `migrateFromLocalStorage_idempotent`: an uninitialized
session with all four legacy keys populated. -/
theorem migrateFromLocalStorage_idempotent_witness :
    DataPersistenceService.migrateFromLocalStorage
      (DataPersistenceService.migrateFromLocalStorage fixtureFacadeUninit) =
      DataPersistenceService.migrateFromLocalStorage fixtureFacadeUninit ∧
    (fixtureFacadeUninit.kvHealthy = true →
      (DataPersistenceService.migrateFromLocalStorage
        fixtureFacadeUninit).legacy =
        { activities := none, presets := none, points := none,
          completed := none }) :=
  migrateFromLocalStorage_idempotent fixtureFacadeUninit rfl

/-! ## clearAllData frame (C8) -/

/-- C8 (amended): `clearAllData()` removes exactly the five Key-Value Store
keys `activities`, `presets`, `totalPoints`, `completedTasks` and
`calendarSyncData`; it leaves the `dailyPoints`, `loadedPresetId` and
`lastActivityDate` keys — and the Structured Store tables — unchanged. -/
theorem clearAllData_clears_five_keys (s : FacadeState)
    (h : s.kvHealthy = true) :
    ∃ s2, DataPersistenceService.clearAllData s = .ok s2 ∧
      s2.prefs.activities = none ∧ s2.prefs.presets = none ∧
      s2.prefs.totalPoints = none ∧ s2.prefs.completedTasks = none ∧
      s2.prefs.calendarSyncData = none ∧
      s2.prefs.dailyPoints = s.prefs.dailyPoints ∧
      s2.prefs.loadedPresetId = s.prefs.loadedPresetId ∧
      s2.prefs.lastActivityDate = s.prefs.lastActivityDate ∧
      s2.db = s.db := by
  refine ⟨{ s with prefs := { s.prefs with
      activities := none, presets := none, totalPoints := none,
      completedTasks := none, calendarSyncData := none } },
    ?_, rfl, rfl, rfl, rfl, rfl, rfl, rfl, rfl, rfl⟩
  simp [DataPersistenceService.clearAllData, h]

/-- Witness for `clearAllData_clears_five_keys`: the broken-driver session
with every key populated. -/
theorem clearAllData_clears_five_keys_witness :
    ∃ s2, DataPersistenceService.clearAllData fixtureFacadeFull = .ok s2 ∧
      s2.prefs.activities = none ∧ s2.prefs.presets = none ∧
      s2.prefs.totalPoints = none ∧ s2.prefs.completedTasks = none ∧
      s2.prefs.calendarSyncData = none ∧
      s2.prefs.dailyPoints = fixtureFacadeFull.prefs.dailyPoints ∧
      s2.prefs.loadedPresetId = fixtureFacadeFull.prefs.loadedPresetId ∧
      s2.prefs.lastActivityDate = fixtureFacadeFull.prefs.lastActivityDate ∧
      s2.db = fixtureFacadeFull.db :=
  clearAllData_clears_five_keys fixtureFacadeFull rfl

/-- C8 counterexample: with every key populated, `clearAllData()` leaves
the `dailyPoints`, `loadedPresetId` and `lastActivityDate` keys in the
Key-Value Store, refuting the claim that it removes every known key. -/
theorem clearAllData_misses_keys_cex :
    ∃ s2, DataPersistenceService.clearAllData fixtureFacadeFull = .ok s2 ∧
      s2.prefs.dailyPoints = some 5 ∧
      s2.prefs.loadedPresetId = some "p7" ∧
      s2.prefs.lastActivityDate = some "2024-03-02" :=
  ⟨_, rfl, rfl, rfl, rfl⟩

/-! ## Facade initialize never rejects (C10) -/

/-- C10: the facade's `initialize()` never rejects: for every session state
and every outcome of the structured store's initialization (success, or
failure on an unavailable engine), it returns normally with the
`isInitialized` flag set, having run the one-time legacy migration (with a
working key-value store, all legacy keys are gone afterwards), so every
subsequent facade call takes the try-structured-then-fallback path. -/
theorem initFacade_never_rejects (s : FacadeState) :
    ∃ s2, DataPersistenceService.initFacade s = .ok s2 ∧
      s2.isInitialized = true ∧
      (s.isInitialized = false → s.kvHealthy = true →
        s2.legacy = { activities := none, presets := none, points := none,
                      completed := none }) := by
  by_cases hi : s.isInitialized = true
  · refine ⟨s, by simp [DataPersistenceService.initFacade, hi], hi,
      fun hf _ => ?_⟩
    rw [hi] at hf
    exact absurd hf (by simp)
  · have hi2 : s.isInitialized = false := by simpa using hi
    by_cases hok : s.sqliteOk = true
    · refine ⟨{ DataPersistenceService.migrateFromLocalStorage s with
          isInitialized := true }, ?_, rfl, fun _ hkv => ?_⟩
      · simp [DataPersistenceService.initFacade, hi2,
          SQLiteStorageService.initDriver, hok]
      · obtain ⟨hl1, hl2, hl3, hl4, _, _⟩ := migrate_kvTrue_clears s hkv hi2
        simpa using legacy_eq_empty _ hl1 hl2 hl3 hl4
    · have hok2 : s.sqliteOk = false := by simpa using hok
      by_cases hav : s.sqliteAvailable = true
      · set mid : FacadeState :=
          { s with sqliteOk := true,
                   db := SQLiteStorageService.sqliteMigratedDb
                     { s with sqliteOk := true } } with hmid
        refine ⟨{ DataPersistenceService.migrateFromLocalStorage mid with
            isInitialized := true }, ?_, rfl, fun _ hkv => ?_⟩
        · simp [DataPersistenceService.initFacade, hi2,
            SQLiteStorageService.initDriver, hok2, hav, hmid]
        · have hkvm : mid.kvHealthy = true := by rw [hmid]; exact hkv
          have him : mid.isInitialized = false := by rw [hmid]; exact hi2
          obtain ⟨hl1, hl2, hl3, hl4, _, _⟩ :=
            migrate_kvTrue_clears mid hkvm him
          simpa using legacy_eq_empty _ hl1 hl2 hl3 hl4
      · have hav2 : s.sqliteAvailable = false := by simpa using hav
        refine ⟨{ DataPersistenceService.migrateFromLocalStorage s with
            isInitialized := true }, ?_, rfl, fun _ hkv => ?_⟩
        · simp [DataPersistenceService.initFacade, hi2,
            SQLiteStorageService.initDriver, hok2, hav2]
        · obtain ⟨hl1, hl2, hl3, hl4, _, _⟩ := migrate_kvTrue_clears s hkv hi2
          simpa using legacy_eq_empty _ hl1 hl2 hl3 hl4

/-- Witness for `initFacade_never_rejects` (its conclusion carries
implications): the uninitialized session with legacy data and no SQLite
engine. -/
theorem initFacade_never_rejects_witness :
    ∃ s2, DataPersistenceService.initFacade fixtureFacadeUninit = .ok s2 ∧
      s2.isInitialized = true ∧
      (fixtureFacadeUninit.isInitialized = false →
       fixtureFacadeUninit.kvHealthy = true →
        s2.legacy = { activities := none, presets := none, points := none,
                      completed := none }) :=
  initFacade_never_rejects fixtureFacadeUninit
